import Mathlib

/-!
A shallow embedding of `bridge_traffic_display.ino` (Bridge-Traffic-Display).

The sketch polls the Google Maps distance-matrix API, derives a colour from
the traffic delta, and renders it on a 20-pixel NeoPixel strip.  We embed the
decision logic, the LED buffer operations, the two-timer super-loop, and the
JSON config persistence.  Machine integers: `int` values are `Int` (inputs are
API durations, far from 32-bit overflow given non-negative inputs); the
`unsigned long` millisecond clock arithmetic is taken modulo `2^32`.
`Adafruit_NeoPixel::Color` packs `(r,g,b)` bytes into a `uint32_t`, embedded
on `Nat`.  ArduinoJson's serialize/parse pair is abstracted as the identity
on single-field JSON documents; its v5 semantics of casting an absent field
to a null `const char*` is modelled with `Option String`.
-/

/-- `#define GREEN_COLOUR_INDEX 0` -/
def GREEN_COLOUR_INDEX : Nat := 0

/-- `#define YELLOW_COLOUR_INDEX 1` -/
def YELLOW_COLOUR_INDEX : Nat := 1

/-- `#define RED_COLOUR_INDEX 2` -/
def RED_COLOUR_INDEX : Nat := 2

/-- `#define NUMBER_OF_LEDS 20` -/
def NUMBER_OF_LEDS : Nat := 20

/-- `#define MEDIUM_TRAFFIC_THRESHOLD 60` (seconds), compared against an `int`. -/
def MEDIUM_TRAFFIC_THRESHOLD : Int := 60

/-- `#define BAD_TRAFFIC_THRESHOLD 300` (seconds), compared against an `int`. -/
def BAD_TRAFFIC_THRESHOLD : Int := 300

/-- `unsigned long delayBetweenApiCalls = 1000 * 60;` -/
def delayBetweenApiCalls : Nat := 1000 * 60

/-- `unsigned long delayBetweenLedChange = 1000 * 10;` -/
def delayBetweenLedChange : Nat := 1000 * 10

/-- `unsigned long` arithmetic is 32-bit on the ESP8266. -/
def ULONG_MOD : Nat := 2 ^ 32

/-- Wrapping `unsigned long` addition, used for the deadline arithmetic
`timeNow + delayBetween...` in `loop`. -/
def addU32 (a b : Nat) : Nat := (a + b) % ULONG_MOD

/-- `Adafruit_NeoPixel::Color(r, g, b)`: packs three bytes into a `uint32_t`
as `(r << 16) | (g << 8) | b`. -/
def ledsColor (r g b : Nat) : Nat := ((r % 256) <<< 16) ||| ((g % 256) <<< 8) ||| (b % 256)

/-- The LED frame buffer: one packed colour per pixel (`leds` strip buffer). -/
abbrev Pixels := List Nat

/-- The sketch's global mutable state that the claims concern: the two
deadlines, the current colour (`uint32_t colour`), the colour index
(`int colourIndex`), and the pixel buffer of the strip. -/
structure SysState where
  api_due_time : Nat
  led_due_time : Nat
  colour : Nat
  colourIndex : Nat
  pixels : Pixels
deriving DecidableEq, Repr

/-- `uint32_t getColour(int durationTraffic_value, int duration_value)`:
computes `difference = durationTraffic_value - duration_value`, sets the
global `colourIndex`, and returns the packed colour.  Note the sketch's
red/green channel swap: red is `Color(0,255,0)`, green is `Color(255,0,0)`. -/
def getColour (durationTraffic_value duration_value : Int) (s : SysState) :
    Nat × SysState :=
  let difference := durationTraffic_value - duration_value
  if difference > BAD_TRAFFIC_THRESHOLD then
    (ledsColor 0 255 0, { s with colourIndex := RED_COLOUR_INDEX })
  else if difference > MEDIUM_TRAFFIC_THRESHOLD then
    (ledsColor 60 180 0, { s with colourIndex := YELLOW_COLOUR_INDEX })
  else
    (ledsColor 255 0 0, { s with colourIndex := GREEN_COLOUR_INDEX })

/-- The shape of the API response string as `checkGoogleMaps` dissects it with
ArduinoJson: it either fails to parse (this includes the empty string), parses
but has no `"rows"` key, or yields an element with a `status` string and the
two duration fields. -/
inductive ApiResponse where
  | parseFail (raw : String)
  | noRows
  | element (status : String) (duration duration_in_traffic : Int)
deriving DecidableEq

/-- The branches of `checkGoogleMaps` that return `false` (failed poll). -/
def pollFails (resp : ApiResponse) : Bool :=
  match resp with
  | .parseFail _ => true
  | .noRows => true
  | .element status _ _ => if status = "OK" then false else true

/-- `bool checkGoogleMaps()`: on a parsed response with `"rows"` and element
status `"OK"`, reads the two durations, assigns
`colour = getColour(durationInTrafficInSeconds, durationInSeconds)` (which
also sets `colourIndex`) and returns `true`; every other branch returns
`false` without touching the state. -/
def checkGoogleMaps (resp : ApiResponse) (s : SysState) : Bool × SysState :=
  match resp with
  | .parseFail _ => (false, s)
  | .noRows => (false, s)
  | .element status d dt =>
    if status = "OK" then
      let r := getColour dt d s
      (true, { r.2 with colour := r.1 })
    else
      (false, s)

/-- A convenient concrete state for witnesses: deadlines 0, colour 0,
`colourIndex` 0, strip dark. -/
def s0 : SysState := ⟨0, 0, 0, 0, List.replicate 20 0⟩

/-- **C1**: for non-negative `int` durations `a` (with traffic) and `b`
(without), `getColour a b` classifies by `delta = a - b` in order:
`delta > 300` → red, else `delta > 60` → yellow, else green (so `delta ≤ 60`,
including zero and negative, is green), and the result is always exactly one
of the three pairwise distinct colour values. -/
theorem getColour_classification (a b : Int) (s : SysState)
    (ha : 0 ≤ a) (hb : 0 ≤ b) :
    ((a - b > 300 → (getColour a b s).1 = ledsColor 0 255 0) ∧
     (a - b ≤ 300 → a - b > 60 → (getColour a b s).1 = ledsColor 60 180 0) ∧
     (a - b ≤ 60 → (getColour a b s).1 = ledsColor 255 0 0)) ∧
    ((getColour a b s).1 = ledsColor 0 255 0 ∨
     (getColour a b s).1 = ledsColor 60 180 0 ∨
     (getColour a b s).1 = ledsColor 255 0 0) ∧
    (ledsColor 0 255 0 ≠ ledsColor 60 180 0 ∧
     ledsColor 60 180 0 ≠ ledsColor 255 0 0 ∧
     ledsColor 0 255 0 ≠ ledsColor 255 0 0) := by
  unfold getColour BAD_TRAFFIC_THRESHOLD MEDIUM_TRAFFIC_THRESHOLD
  dsimp only
  split_ifs with h1 h2 <;>
    refine ⟨⟨?_, ?_, ?_⟩, ?_, by decide, by decide, by decide⟩ <;>
    simp_all <;> omega

/-- Witness for `getColour_classification` at `a = 1000`, `b = 500`
(delta 500 → red). -/
theorem getColour_classification_witness :
    (getColour 1000 500 s0).1 = ledsColor 0 255 0 :=
  (getColour_classification 1000 500 s0 (by decide) (by decide)).1.1 (by decide)

/-- **C8**: the colour returned by `getColour` depends only on the two
duration arguments: calling it a second time from the state the first call
produced returns the same colour. -/
theorem getColour_idempotent (a b : Int) (s : SysState) :
    (getColour a b (getColour a b s).2).1 = (getColour a b s).1 := by
  unfold getColour
  dsimp only
  split_ifs <;> rfl

/-- **C9**: after `getColour`, the stored `colourIndex` agrees with the
returned colour value: `RED_COLOUR_INDEX` exactly for the red value,
`YELLOW_COLOUR_INDEX` exactly for the yellow value, `GREEN_COLOUR_INDEX`
exactly for the green value — the invariant `twinkleLed` relies on. -/
theorem getColour_colourIndex_agrees (a b : Int) (s : SysState) :
    ((getColour a b s).2.colourIndex = RED_COLOUR_INDEX ↔
      (getColour a b s).1 = ledsColor 0 255 0) ∧
    ((getColour a b s).2.colourIndex = YELLOW_COLOUR_INDEX ↔
      (getColour a b s).1 = ledsColor 60 180 0) ∧
    ((getColour a b s).2.colourIndex = GREEN_COLOUR_INDEX ↔
      (getColour a b s).1 = ledsColor 255 0 0) := by
  unfold getColour
  dsimp only
  split_ifs <;> refine ⟨?_, ?_, ?_⟩ <;> simp <;> decide

/-- **C3**: every failing response shape — unparseable (in particular the
empty string), missing `"rows"`, or element status other than `"OK"` — makes
`checkGoogleMaps` return `false` with the state (in particular `colour` and
`colourIndex`) exactly as before. -/
theorem checkGoogleMaps_failure_preserves_state (resp : ApiResponse)
    (s : SysState) (h : pollFails resp = true) :
    checkGoogleMaps resp s = (false, s) := by
  cases resp with
  | parseFail raw => rfl
  | noRows => rfl
  | element status d dt =>
    unfold checkGoogleMaps
    unfold pollFails at h
    dsimp only at h ⊢
    split_ifs at h ⊢
    all_goals simp_all

/-- Witness for `checkGoogleMaps_failure_preserves_state` on the empty
response body. -/
theorem checkGoogleMaps_failure_witness :
    checkGoogleMaps (.parseFail "") s0 = (false, s0) :=
  checkGoogleMaps_failure_preserves_state (.parseFail "") s0 (by decide)

/-- `leds.setPixelColor(i, c)` on the frame buffer. -/
def setPixelColor (px : Pixels) (i : Nat) (c : Nat) : Pixels := px.set i c

/-- `void setAllLeds(uint32_t col)`: `for(i = 0; i < NUMBER_OF_LEDS; i++) setPixelColor(i, col)`. -/
def setAllLeds (px : Pixels) (col : Nat) : Pixels :=
  (List.range NUMBER_OF_LEDS).foldl (fun p i => setPixelColor p i col) px

/-- `void unLightAllLeds()`: all pixels to `Color(0,0,0)`. -/
def unLightAllLeds (px : Pixels) : Pixels := setAllLeds px (ledsColor 0 0 0)

/-- An ascending `for (j = 1; j <= n; j++)` loop: applies `f 1`, then `f 2`,
…, last `f n`. -/
def upTo (f : Nat → Pixels → Pixels) : Nat → Pixels → Pixels
  | 0, p => p
  | n + 1, p => f (n + 1) (upTo f n p)

/-- A descending `for (j = n; j > 0; j--)` loop: applies `f n` first, then
`f (n-1)`, …, last `f 1`. -/
def downFrom (f : Nat → Pixels → Pixels) : Nat → Pixels → Pixels
  | 0, p => p
  | n + 1, p => downFrom f n (f (n + 1) p)

/-- One iteration of the outer loop of `lightLeds`: pixels `0..j-1` to `col`
(cumulative, no per-frame reset). -/
def lightLedsStep (col : Nat) (j : Nat) (p : Pixels) : Pixels :=
  (List.range j).foldl (fun q i => setPixelColor q i col) p

/-- `void lightLeds(uint32_t col)`: clears the strip, then sweeps pixels
`0..j-1` to `col` for `j = 1..NUMBER_OF_LEDS` (with `show`/`delay` per frame,
which only pace the animation). -/
def lightLeds (col : Nat) (px : Pixels) : Pixels :=
  upTo (lightLedsStep col) NUMBER_OF_LEDS (unLightAllLeds px)

/-- One frame of `lightLedsForwards`: all pixels to `oldColour`, then pixels
`0..j-1` to `newColour`. -/
def forwardsStep (newColour oldColour : Nat) (j : Nat) (p : Pixels) : Pixels :=
  (List.range j).foldl (fun q i => setPixelColor q i newColour) (setAllLeds p oldColour)

/-- `void lightLedsForwards(uint32_t newColour, uint32_t oldColour)`:
frames `j = 1..NUMBER_OF_LEDS`. -/
def lightLedsForwards (newColour oldColour : Nat) (px : Pixels) : Pixels :=
  upTo (forwardsStep newColour oldColour) NUMBER_OF_LEDS px

/-- One frame of `lightLedsBackwards`: all pixels to `oldColour`, then pixels
`NUMBER_OF_LEDS-1` down to `j` to `newColour`. -/
def backwardsStep (newColour oldColour : Nat) (j : Nat) (p : Pixels) : Pixels :=
  (List.range (NUMBER_OF_LEDS - j)).foldl
    (fun q k => setPixelColor q (NUMBER_OF_LEDS - 1 - k) newColour)
    (setAllLeds p oldColour)

/-- `void lightLedsBackwards(uint32_t newColour, uint32_t oldColour)`:
frames `j = NUMBER_OF_LEDS-1` down to `1` (note: `j` never reaches `0`). -/
def lightLedsBackwards (newColour oldColour : Nat) (px : Pixels) : Pixels :=
  downFrom (backwardsStep newColour oldColour) (NUMBER_OF_LEDS - 1) px

/-- The `switch(colourIndex)` at the top of `twinkleLed`; the declared
initial value `Color(0,0,0)` survives an out-of-range index. -/
def twinkleLighterColour (ci : Nat) : Nat :=
  if ci = GREEN_COLOUR_INDEX then ledsColor 80 0 0
  else if ci = YELLOW_COLOUR_INDEX then ledsColor 15 45 0
  else if ci = RED_COLOUR_INDEX then ledsColor 0 80 0
  else ledsColor 0 0 0

/-- The frame-buffer effect of `void twinkleLed()`:
`lightLedsForwards(lighterColour, colour); delay(600);
lightLedsBackwards(colour, lighterColour);`. -/
def twinkleLedPixels (ci c : Nat) (px : Pixels) : Pixels :=
  lightLedsBackwards c (twinkleLighterColour ci)
    (lightLedsForwards (twinkleLighterColour ci) c px)

/-- `twinkleLed` as a state transformer: it only rewrites the frame buffer. -/
def twinkleLed (s : SysState) : SysState :=
  { s with pixels := twinkleLedPixels s.colourIndex s.colour s.pixels }

theorem length_foldl_set {β : Type} (g : β → Nat) (c : Nat) :
    ∀ (l : List β) (px : Pixels),
      (l.foldl (fun q i => setPixelColor q (g i) c) px).length = px.length := by
  intro l
  induction l with
  | nil => intro px; rfl
  | cons a t ih =>
    intro px
    rw [List.foldl_cons, ih]
    exact List.length_set px (g a) c

theorem length_setAllLeds (px : Pixels) (c : Nat) :
    (setAllLeds px c).length = px.length :=
  length_foldl_set (fun i => i) c (List.range NUMBER_OF_LEDS) px

theorem foldl_set_range (c : Nat) :
    ∀ (n : Nat) (px : Pixels), n ≤ px.length →
      (List.range n).foldl (fun q i => setPixelColor q i c) px =
        List.replicate n c ++ px.drop n := by
  intro n
  induction n with
  | zero => intro px h; simp
  | succ n ih =>
    intro px h
    have hn : n < px.length := h
    rw [List.range_succ, List.foldl_append, ih px (Nat.le_of_succ_le h)]
    simp only [List.foldl_cons, List.foldl_nil, setPixelColor]
    rw [List.set_append_right n c (by simp), List.length_replicate, Nat.sub_self,
      List.drop_eq_getElem_cons hn, List.set_cons_zero]
    simp [List.replicate_succ', List.append_assoc]

theorem setAllLeds_of_length (px : Pixels) (c : Nat)
    (h : px.length = NUMBER_OF_LEDS) :
    setAllLeds px c = List.replicate NUMBER_OF_LEDS c := by
  unfold setAllLeds
  rw [foldl_set_range c NUMBER_OF_LEDS px (by rw [h])]
  have hd : px.drop NUMBER_OF_LEDS = [] := by
    rw [← h]; exact List.drop_length px
  rw [hd, List.append_nil]

theorem length_upTo (f : Nat → Pixels → Pixels)
    (hf : ∀ j p, (f j p).length = p.length) :
    ∀ (n : Nat) (px : Pixels), (upTo f n px).length = px.length := by
  intro n
  induction n with
  | zero => intro px; rfl
  | succ n ih =>
    intro px
    have : upTo f (n + 1) px = f (n + 1) (upTo f n px) := rfl
    rw [this, hf, ih]

theorem downFrom_succ_shape (f : Nat → Pixels → Pixels)
    (hf : ∀ j p, (f j p).length = p.length) :
    ∀ (n : Nat) (px : Pixels), ∃ q : Pixels,
      q.length = px.length ∧ downFrom f (n + 1) px = f 1 q := by
  intro n
  induction n with
  | zero => intro px; exact ⟨px, rfl, rfl⟩
  | succ n ih =>
    intro px
    obtain ⟨q, hq, he⟩ := ih (f (n + 2) px)
    refine ⟨q, by rw [hq, hf], ?_⟩
    have : downFrom f (n + 2) px = downFrom f (n + 1) (f (n + 2) px) := rfl
    rw [this, he]

theorem length_forwardsStep (newC oldC : Nat) (j : Nat) (p : Pixels) :
    (forwardsStep newC oldC j p).length = p.length :=
  (length_foldl_set (fun i => i) newC (List.range j) (setAllLeds p oldC)).trans
    (length_setAllLeds p oldC)

theorem length_backwardsStep (newC oldC : Nat) (j : Nat) (p : Pixels) :
    (backwardsStep newC oldC j p).length = p.length :=
  (length_foldl_set (fun k => NUMBER_OF_LEDS - 1 - k) newC
      (List.range (NUMBER_OF_LEDS - j)) (setAllLeds p oldC)).trans
    (length_setAllLeds p oldC)

theorem forwardsStep_last (newC oldC : Nat) (q : Pixels)
    (hq : q.length = NUMBER_OF_LEDS) :
    forwardsStep newC oldC NUMBER_OF_LEDS q = List.replicate NUMBER_OF_LEDS newC := by
  unfold forwardsStep
  rw [setAllLeds_of_length q oldC hq,
    foldl_set_range newC NUMBER_OF_LEDS (List.replicate NUMBER_OF_LEDS oldC) (by simp)]
  simp

set_option maxHeartbeats 2000000 in
set_option maxRecDepth 8000 in
theorem backwardsStep_one (newC oldC : Nat) (q : Pixels)
    (hq : q.length = NUMBER_OF_LEDS) :
    backwardsStep newC oldC 1 q =
      oldC :: List.replicate (NUMBER_OF_LEDS - 1) newC := by
  unfold backwardsStep
  rw [setAllLeds_of_length q oldC hq]
  rfl

theorem lightLedsForwards_of_length (newC oldC : Nat) (px : Pixels)
    (h : px.length = NUMBER_OF_LEDS) :
    lightLedsForwards newC oldC px = List.replicate NUMBER_OF_LEDS newC := by
  have hq : (upTo (forwardsStep newC oldC) 19 px).length = NUMBER_OF_LEDS := by
    rw [length_upTo (forwardsStep newC oldC) (length_forwardsStep newC oldC) 19 px, h]
  have hu : lightLedsForwards newC oldC px
      = forwardsStep newC oldC NUMBER_OF_LEDS (upTo (forwardsStep newC oldC) 19 px) := rfl
  rw [hu, forwardsStep_last newC oldC _ hq]

theorem lightLedsBackwards_of_length (newC oldC : Nat) (px : Pixels)
    (h : px.length = NUMBER_OF_LEDS) :
    lightLedsBackwards newC oldC px =
      oldC :: List.replicate (NUMBER_OF_LEDS - 1) newC := by
  obtain ⟨q, hq, he⟩ :=
    downFrom_succ_shape (backwardsStep newC oldC) (length_backwardsStep newC oldC) 18 px
  have hu : lightLedsBackwards newC oldC px
      = downFrom (backwardsStep newC oldC) (18 + 1) px := rfl
  rw [hu, he, backwardsStep_one newC oldC q (hq.trans h)]

theorem twinkleLedPixels_eval (ci c : Nat) (px : Pixels)
    (h : px.length = NUMBER_OF_LEDS) :
    twinkleLedPixels ci c px =
      twinkleLighterColour ci :: List.replicate (NUMBER_OF_LEDS - 1) c := by
  unfold twinkleLedPixels
  rw [lightLedsForwards_of_length (twinkleLighterColour ci) c px h,
    lightLedsBackwards_of_length c (twinkleLighterColour ci) _ (by simp)]

/-- A concrete state for the C5 counterexample: green base colour, strip dark. -/
def s5cex : SysState := ⟨0, 0, ledsColor 255 0 0, GREEN_COLOUR_INDEX, List.replicate 20 0⟩

/-- **C5 counterexample**: after `twinkleLed` from the green state, pixel 0
does NOT hold the base colour again — the backwards sweep stops at index 1,
leaving pixel 0 at the lighter tint `Color(80,0,0)`. -/
theorem twinkleLed_pixel_zero_not_restored :
    ¬ ∀ i, i < NUMBER_OF_LEDS →
      (twinkleLed s5cex).pixels.get? i = some s5cex.colour := by
  intro hall
  have h0 := hall 0 (by decide)
  have he : twinkleLed s5cex =
      { s5cex with pixels := twinkleLighterColour s5cex.colourIndex ::
          List.replicate (NUMBER_OF_LEDS - 1) s5cex.colour } := by
    unfold twinkleLed
    rw [twinkleLedPixels_eval s5cex.colourIndex s5cex.colour s5cex.pixels (by decide)]
  rw [he] at h0
  revert h0
  decide

/-- **C5 (amended)**: after `twinkleLed` completes, pixels `1` through
`NUMBER_OF_LEDS - 1` hold the current base colour again, but pixel `0` is
left holding the lighter tint chosen for the current `colourIndex` (and the
rest of the state is untouched). -/
theorem twinkleLed_final_state (s : SysState)
    (h : s.pixels.length = NUMBER_OF_LEDS) :
    twinkleLed s =
      { s with pixels := twinkleLighterColour s.colourIndex ::
          List.replicate (NUMBER_OF_LEDS - 1) s.colour } := by
  unfold twinkleLed
  rw [twinkleLedPixels_eval s.colourIndex s.colour s.pixels h]

/-- Witness for `twinkleLed_final_state` at the concrete green state. -/
theorem twinkleLed_final_state_witness :
    twinkleLed s5cex =
      { s5cex with pixels := twinkleLighterColour s5cex.colourIndex ::
          List.replicate (NUMBER_OF_LEDS - 1) s5cex.colour } :=
  twinkleLed_final_state s5cex (by decide)

/-- The first half of `void loop()`: when `timeNow > api_due_time`, run
`checkGoogleMaps()`; on success play `lightLeds(colour)`; then — regardless
of success — set `api_due_time = timeNow + delayBetweenApiCalls` and
`led_due_time = timeNow + delayBetweenLedChange`. -/
def apiBranch (timeNow : Nat) (resp : ApiResponse) (s : SysState) : SysState :=
  if timeNow > s.api_due_time then
    let r := checkGoogleMaps resp s
    let s2 := if r.1 then { r.2 with pixels := lightLeds r.2.colour r.2.pixels } else r.2
    { s2 with api_due_time := addU32 timeNow delayBetweenApiCalls,
              led_due_time := addU32 timeNow delayBetweenLedChange }
  else s

/-- The second half of `void loop()`: when `timeNow > led_due_time` (with
`timeNow` re-read from `millis()`), play `twinkleLed()` and set
`led_due_time = timeNow + delayBetweenLedChange`. -/
def ledBranch (timeNow : Nat) (s : SysState) : SysState :=
  if timeNow > s.led_due_time then
    { twinkleLed s with led_due_time := addU32 timeNow delayBetweenLedChange }
  else s

/-- One iteration of `void loop()`: `t1` and `t2` are the two `millis()`
reads, `resp` the response the network would deliver if polled. -/
def loopStep (t1 : Nat) (resp : ApiResponse) (t2 : Nat) (s : SysState) : SysState :=
  ledBranch t2 (apiBranch t1 resp s)

theorem checkGoogleMaps_of_pollFails (resp : ApiResponse) (s : SysState)
    (h : pollFails resp = true) : checkGoogleMaps resp s = (false, s) := by
  cases resp with
  | parseFail raw => rfl
  | noRows => rfl
  | element status d dt =>
    unfold checkGoogleMaps
    unfold pollFails at h
    dsimp only at h ⊢
    split_ifs at h ⊢
    all_goals simp_all

theorem apiBranch_not_due (t : Nat) (resp : ApiResponse) (s : SysState)
    (h : ¬ t > s.api_due_time) : apiBranch t resp s = s := by
  unfold apiBranch
  rw [if_neg h]

theorem apiBranch_of_pollFails (t : Nat) (resp : ApiResponse) (s : SysState)
    (hdue : t > s.api_due_time) (hfail : pollFails resp = true) :
    apiBranch t resp s =
      { s with api_due_time := addU32 t delayBetweenApiCalls,
               led_due_time := addU32 t delayBetweenLedChange } := by
  unfold apiBranch
  dsimp only
  rw [if_pos hdue, checkGoogleMaps_of_pollFails resp s hfail]
  rfl

theorem twinkleLed_preserves_colour (s : SysState) :
    (twinkleLed s).colour = s.colour ∧ (twinkleLed s).colourIndex = s.colourIndex := by
  unfold twinkleLed
  generalize twinkleLedPixels s.colourIndex s.colour s.pixels = X
  exact ⟨rfl, rfl⟩

theorem ledBranch_preserves_colour (t : Nat) (s : SysState) :
    (ledBranch t s).colour = s.colour ∧ (ledBranch t s).colourIndex = s.colourIndex := by
  unfold ledBranch twinkleLed
  generalize twinkleLedPixels s.colourIndex s.colour s.pixels = X
  split_ifs with h
  · exact ⟨rfl, rfl⟩
  · exact ⟨rfl, rfl⟩

/-- A concrete state for the C2 counterexample: poll overdue, render deadline
far in the future. -/
def s2cex : SysState := ⟨0, 1000000, 0, 0, List.replicate 20 0⟩

/-- **C2 counterexample**: a loop iteration at `t = 5` whose poll fails (empty
response) nevertheless changes `led_due_time` (from 1000000 to 10005): the
render deadline is NOT left unchanged on a failed poll. -/
theorem loop_failed_poll_moves_led_deadline :
    pollFails (.parseFail "") = true ∧
    5 > s2cex.api_due_time ∧
    (loopStep 5 (.parseFail "") 6 s2cex).led_due_time ≠ s2cex.led_due_time := by
  decide

/-- **C2 (amended)**: in every loop iteration whose poll attempt fails, the
poll branch reschedules BOTH deadlines — `api_due_time` to
`timeNow + delayBetweenApiCalls` and `led_due_time` to
`timeNow + delayBetweenLedChange` — and leaves the LED pixels, `colour` and
`colourIndex` unchanged. -/
theorem apiBranch_failure_reschedules_both (t : Nat) (resp : ApiResponse)
    (s : SysState) (hdue : t > s.api_due_time) (hfail : pollFails resp = true) :
    apiBranch t resp s =
      { s with api_due_time := addU32 t delayBetweenApiCalls,
               led_due_time := addU32 t delayBetweenLedChange } :=
  apiBranch_of_pollFails t resp s hdue hfail

/-- Witness for `apiBranch_failure_reschedules_both` at `t = 5` on `s2cex`. -/
theorem apiBranch_failure_reschedules_both_witness :
    apiBranch 5 (.parseFail "") s2cex =
      { s2cex with api_due_time := addU32 5 delayBetweenApiCalls,
                   led_due_time := addU32 5 delayBetweenLedChange } :=
  apiBranch_failure_reschedules_both 5 (.parseFail "") s2cex (by decide) (by decide)

/-- **C7**: along a loop iteration, `colour` and `colourIndex` change only
through a successful poll inside `checkGoogleMaps`: if the poll is not due or
fails, the iteration preserves both, and `twinkleLed` never modifies them. -/
theorem colour_updated_only_by_successful_poll (t1 : Nat) (resp : ApiResponse)
    (t2 : Nat) (s : SysState)
    (h : pollFails resp = true ∨ ¬ t1 > s.api_due_time) :
    ((loopStep t1 resp t2 s).colour = s.colour ∧
     (loopStep t1 resp t2 s).colourIndex = s.colourIndex) ∧
    ((twinkleLed s).colour = s.colour ∧
     (twinkleLed s).colourIndex = s.colourIndex) := by
  refine ⟨?_, twinkleLed_preserves_colour s⟩
  rcases h with hfail | hdue
  · by_cases hd : t1 > s.api_due_time
    · unfold loopStep
      rw [apiBranch_of_pollFails t1 resp s hd hfail]
      exact ⟨(ledBranch_preserves_colour t2 _).1.trans rfl,
        (ledBranch_preserves_colour t2 _).2.trans rfl⟩
    · unfold loopStep
      rw [apiBranch_not_due t1 resp s hd]
      exact ledBranch_preserves_colour t2 s
  · unfold loopStep
    rw [apiBranch_not_due t1 resp s hdue]
    exact ledBranch_preserves_colour t2 s

/-- Witness for `colour_updated_only_by_successful_poll`: a not-yet-due poll
iteration on `s0`. -/
theorem colour_updated_only_by_successful_poll_witness :
    ((loopStep 0 .noRows 0 s0).colour = s0.colour ∧
     (loopStep 0 .noRows 0 s0).colourIndex = s0.colourIndex) ∧
    ((twinkleLed s0).colour = s0.colour ∧
     (twinkleLed s0).colourIndex = s0.colourIndex) :=
  colour_updated_only_by_successful_poll 0 .noRows 0 s0 (Or.inl (by decide))

/-- The on-flash config file as `loadConfig` distinguishes it: absent
(`SPIFFS.open` fails), present but not parseable as JSON, or parseable as a
JSON object whose `"mapsApiKey"` field is either a string or absent.
`size` is the file size in bytes checked against 1024. -/
inductive ConfigFile where
  | missing
  | unparseable (size : Nat)
  | jsonObject (size : Nat) (mapsApiKey : Option String)
deriving DecidableEq

/-- Outcome of `bool loadConfig()` on the `apiKey` buffer: `failed` returns
`false` leaving the buffer as it was; `loaded` returns `true` with the copied
string; `nullStrcpy` marks the unguarded `strcpy(apiKey, json["mapsApiKey"])`
receiving a null source pointer (ArduinoJson v5 casts an absent field to a
null `const char*`), which is undefined behaviour. -/
inductive LoadResult where
  | failed (apiKey : String)
  | loaded (apiKey : String)
  | nullStrcpy
deriving DecidableEq

/-- `bool loadConfig()`: open the file (fail if missing), reject sizes over
1024, parse with ArduinoJson (fail on parse error), then
`strcpy(apiKey, json["mapsApiKey"])` unconditionally. -/
def loadConfig (f : ConfigFile) (apiKey : String) : LoadResult :=
  match f with
  | .missing => .failed apiKey
  | .unparseable size =>
    if size > 1024 then .failed apiKey
    else .failed apiKey
  | .jsonObject size mapsApiKey =>
    if size > 1024 then .failed apiKey
    else
      match mapsApiKey with
      | some k => .loaded k
      | none => .nullStrcpy

/-- ArduinoJson v5 string escaping (`Internals/QuotedString`), used by
`json.printTo(configFile)` in `saveConfig`: quote, backslash and the control
characters b, f, n, r, t become two-character escapes. -/
def jsonEscapeChar (c : Char) : List Char :=
  if c = '"' then ['\\', '"']
  else if c = '\\' then ['\\', '\\']
  else if c = '\x08' then ['\\', 'b']
  else if c = '\x0c' then ['\\', 'f']
  else if c = '\n' then ['\\', 'n']
  else if c = '\r' then ['\\', 'r']
  else if c = '\t' then ['\\', 't']
  else [c]

/-- The escaped form of a string value in the serialized document. -/
def jsonEscape (s : String) : List Char :=
  s.data.foldr (fun c acc => jsonEscapeChar c ++ acc) []

/-- Byte length of `json.printTo` output for the single-field object
`{"mapsApiKey":"<escaped key>"}`: 17 framing characters plus the escaped
value. -/
def serializedConfigLength (apiKey : String) : Nat :=
  (jsonEscape apiKey).length + 17

/-- `bool saveConfig()`: builds the object `{ "mapsApiKey": apiKey }` and
prints it to the (re-created) config file; the abstract file records the
serialized size and the parsed-back document. -/
def saveConfig (apiKey : String) : ConfigFile :=
  .jsonObject (serializedConfigLength apiKey) (some apiKey)

/-- The `loadConfig` branches that return `false`: missing file, file over
1024 bytes, or unparseable contents. -/
def loadConfigFails (f : ConfigFile) : Bool :=
  match f with
  | .missing => true
  | .unparseable _ => true
  | .jsonObject size _ => if size > 1024 then true else false

theorem jsonEscapeChar_length_le (c : Char) : (jsonEscapeChar c).length ≤ 2 := by
  unfold jsonEscapeChar
  split_ifs <;> simp

theorem jsonEscape_length_le_list : ∀ l : List Char,
    (l.foldr (fun c acc => jsonEscapeChar c ++ acc) []).length ≤ 2 * l.length := by
  intro l
  induction l with
  | nil => simp
  | cons c t ih =>
    simp only [List.foldr_cons, List.length_append, List.length_cons]
    have := jsonEscapeChar_length_le c
    omega

theorem jsonEscape_length_le (s : String) :
    (jsonEscape s).length ≤ 2 * s.length :=
  jsonEscape_length_le_list s.data

/-- **C4**: for every credential string that fits the `char apiKey[45]`
buffer (at most 44 characters), saving it with `saveConfig` and reloading
with `loadConfig` yields the identical string back in the buffer. -/
theorem saveConfig_loadConfig_roundtrip (key old : String)
    (h : key.length ≤ 44) :
    loadConfig (saveConfig key) old = .loaded key := by
  unfold saveConfig loadConfig
  dsimp only
  have hle : ¬ serializedConfigLength key > 1024 := by
    unfold serializedConfigLength
    have := jsonEscape_length_le key
    omega
  rw [if_neg hle]

/-- Witness for `saveConfig_loadConfig_roundtrip` on a concrete key. -/
theorem saveConfig_loadConfig_roundtrip_witness :
    loadConfig (saveConfig "AIzaTestKey123") "" = .loaded "AIzaTestKey123" :=
  saveConfig_loadConfig_roundtrip "AIzaTestKey123" "" (by decide)

/-- **C6**: a missing config file, a file larger than 1024 bytes, or contents
that do not parse as JSON make `loadConfig` return `false` and leave the
`apiKey` buffer exactly as it was. -/
theorem loadConfig_failure_preserves_apiKey (f : ConfigFile) (apiKey : String)
    (h : loadConfigFails f = true) : loadConfig f apiKey = .failed apiKey := by
  cases f with
  | missing => rfl
  | unparseable size =>
    unfold loadConfig
    dsimp only
    split_ifs <;> rfl
  | jsonObject size key =>
    unfold loadConfigFails at h
    unfold loadConfig
    dsimp only at h ⊢
    split_ifs at h ⊢
    all_goals simp_all

/-- Witness for `loadConfig_failure_preserves_apiKey` on a missing file. -/
theorem loadConfig_failure_preserves_apiKey_witness :
    loadConfig .missing "prior" = .failed "prior" :=
  loadConfig_failure_preserves_apiKey .missing "prior" (by decide)

/-- **C10 counterexample**: a 20-byte config file that parses as a JSON
object but has no `"mapsApiKey"` field drives the unguarded
`strcpy(apiKey, json["mapsApiKey"])` with a null source pointer — the value
read is not a valid non-null string. -/
theorem loadConfig_absent_field_null_strcpy :
    loadConfig (.jsonObject 20 none) "prior" = .nullStrcpy := rfl

/-- **C10 (amended)**: for a config file that parses as a JSON object (and
passes the size check), the `strcpy` source is a valid non-null string
exactly when the `"mapsApiKey"` field is present as a string — in which case
that string is copied — and is null exactly when the field is absent. -/
theorem loadConfig_strcpy_source_nullity (size : Nat) (key : Option String)
    (apiKey : String) (h : ¬ size > 1024) :
    (loadConfig (.jsonObject size key) apiKey = .nullStrcpy ↔ key = none) ∧
    (∀ k, key = some k → loadConfig (.jsonObject size key) apiKey = .loaded k) := by
  unfold loadConfig
  dsimp only
  rw [if_neg h]
  cases key <;> simp

/-- Witness for `loadConfig_strcpy_source_nullity` with the field present. -/
theorem loadConfig_strcpy_source_nullity_witness :
    (loadConfig (.jsonObject 30 (some "k")) "" = .nullStrcpy ↔
      (some "k" : Option String) = none) ∧
    (∀ k, (some "k" : Option String) = some k →
      loadConfig (.jsonObject 30 (some "k")) "" = .loaded k) :=
  loadConfig_strcpy_source_nullity 30 (some "k") "" (by decide)
